import Mathlib

/-!
Verification of the adaptive route-search engine of the travel-route-planner
backend (`server/services/routeService.js`).

Embedding conventions:
* JavaScript numbers are modelled as `ℚ` (the scenarios under verification use
  only exact decimal arithmetic, where IEEE doubles and rationals agree on the
  comparisons performed by the code).
* The external OpenRouteService provider is modelled as an oracle function.
  For the outer retry loops the oracle gives, per strategy attempt, the result
  of one `callOpenRouteService` invocation (`Except ORSError ORSResponse`);
  for `callOpenRouteService` itself the network is modelled as a function from
  the call index to a `NetOutcome`.
* `Math.cos` / `Math.sin` are abstracted as function parameters.  The walking
  proposer evaluates them at the fraction `i / numPoints` of a full turn
  (source: angle `2·π·i/numPoints` radians); the cycling error recovery
  evaluates them at `attempt * 45` degrees (source: `angle = attempt * 45`).
* The source compares `Math.sqrt(dLat² + dLng²) * 111 > 80`; the embedding
  compares the squares, `(dLat² + dLng²) * 111² > 80²`, which is equivalent
  since both sides are nonnegative.
* Thrown `Error` values are modelled structurally, one constructor per throw
  site, carrying exactly the data interpolated into the source message.
* Loops with an attempt budget are embedded by structural recursion on the
  remaining budget (the `fuel` argument); each strategy iteration of the
  source consumes exactly one unit.  Every loop embedding also returns the
  number of oracle invocations it performed.
-/

namespace TravelRoutePlanner

/-- One coordinate, stored like the source's `[lng, lat]` pairs. -/
structure Coord where
  lng : ℚ
  lat : ℚ
deriving DecidableEq, Repr

/-- One entry of `features[0].properties.segments` in an OpenRouteService
response: distance in meters, duration in seconds, elevation gain in meters. -/
structure Segment where
  distance : ℚ
  duration : ℚ
  elevation_gain : ℚ
deriving DecidableEq, Repr

/-- One entry of the `features` array of an OpenRouteService response, with
the fields the route service reads: `properties.segments`,
`geometry.coordinates`, and `properties.summary.duration` when present. -/
structure Feature where
  segments : List Segment
  geometry : List Coord
  summaryDuration : Option ℚ
deriving DecidableEq, Repr

/-- The body of a successful OpenRouteService response (`response.data`). -/
structure ORSResponse where
  features : List Feature
deriving DecidableEq, Repr

/-- Per-day entry of the cycling route's `dayDetails` array. -/
structure DayPlan where
  day : Nat
  distance : ℚ
  duration : ℚ
  startPoint : Coord
  endPoint : Coord
  path : List Coord
deriving DecidableEq, Repr

/-- The route object assembled by `generateWalkingRoute` /
`generateCyclingRoute`, restricted to the numeric and geometric fields the
claims are about. -/
structure Route where
  distance : ℚ
  estimatedDuration : ℚ
  path : List Coord
  startPoint : Coord
  endPoint : Coord
  elevationGain : ℚ
  isMultiDay : Bool
  dayDetails : List DayPlan
deriving DecidableEq, Repr

/-- Errors thrown by `callOpenRouteService`, one constructor per throw site:
missing API key, the local first-pair straight-line check, the per-point
coordinate checks, HTTP 400, HTTP 404 (flagged profile error), HTTP 401/403,
and the final failure after the internal transient-retry budget. -/
inductive ORSError where
  | noApiKey
  | tooFarApart
  | invalidCoord (i : Nat)
  | nearZeroCoord (i : Nat)
  | badRequest
  | profileNotFound (profile : String)
  | authError (status : Nat)
  | transientFailed (attempts : Nat)
deriving DecidableEq, Repr

/-- An exception caught by the `catch` blocks of the retry loops: either an
error thrown by `callOpenRouteService`, or the `TypeError` raised when the
loop body reads `response.features[0].properties` of an empty `features`
array. -/
inductive CaughtErr where
  | api (e : ORSError)
  | undefinedAccess
deriving DecidableEq, Repr

/-- Terminal failures of `validateAndRetryRoute`: an error rethrown on the
last attempt, or the generic exhaustion error thrown after the loop
(`Failed to generate acceptable route after N attempts` — note it carries
only the attempt count, no distance). -/
inductive WalkError where
  | caught (e : CaughtErr)
  | exhausted (n : Nat)
deriving DecidableEq, Repr

/-- Terminal failures of `generateCityRouteWithRetry`: an error rethrown on
the last attempt, or the `CYCLING_ROUTE_FAILED` error thrown after the loop. -/
inductive CycError where
  | caught (e : CaughtErr)
  | failed (n : Nat)
deriving DecidableEq, Repr

/-- Failures of the whole `generateWalkingRoute` pipeline downstream of
geocoding. -/
inductive WalkFullError where
  | loopErr (e : WalkError)
  | noRoute
  | finalTooShort (km : ℚ)
  | finalTooLong (km : ℚ)
  | emptyGeometry
deriving DecidableEq, Repr

/-- Failures of the whole `generateCyclingRoute` pipeline downstream of
geocoding. -/
inductive CycFullError where
  | gen (e : CycError)
  | invalidStructure
  | processing
deriving DecidableEq, Repr

/-- Outcome of one raw network exchange inside `callOpenRouteService`:
a body, an HTTP error with a status code, or a network failure with no
response object. -/
inductive NetOutcome where
  | success (resp : ORSResponse)
  | httpError (status : Nat)
  | netError
deriving DecidableEq, Repr

/-- Sum of `segment.distance` over a segments array
(`segments.reduce((sum, s) => sum + s.distance, 0)`). -/
def sumDist (segs : List Segment) : ℚ :=
  segs.foldl (fun acc s => acc + s.distance) 0

/-- Sum of `segment.duration` over a segments array. -/
def sumDur (segs : List Segment) : ℚ :=
  segs.foldl (fun acc s => acc + s.duration) 0

/-- Sum of `segment.elevation_gain || 0` over a segments array. -/
def sumElev (segs : List Segment) : ℚ :=
  segs.foldl (fun acc s => acc + s.elevation_gain) 0

/-- Measured distance of a response feature in kilometers: the source's
`features[0].properties.segments.reduce((sum, s) => sum + s.distance, 0) / 1000`. -/
def featureKm (f : Feature) : ℚ := sumDist f.segments / 1000

/-- Squared straight-line separation of two points scaled by `111²` (km² per
squared degree).  The source computes
`Math.sqrt((lat2-lat1)² + (lng2-lng1)²) * 111` and compares it with `80`;
comparing the squares is equivalent. -/
def sqScaledDist (c1 c2 : Coord) : ℚ :=
  ((c2.lat - c1.lat) ^ 2 + (c2.lng - c1.lng) ^ 2) * 111 ^ 2

/-- Whether two points are farther than 80 km apart straight-line in the
source's degree approximation. -/
def pairTooFar (c1 c2 : Coord) : Bool :=
  if 80 ^ 2 < sqScaledDist c1 c2 then true else false

/-- The local distance check of `callOpenRouteService`: it only inspects
`coordinates[0]` and `coordinates[1]`. -/
def firstPairTooFar : List Coord → Bool
  | c1 :: c2 :: _ => pairTooFar c1 c2
  | _ => false

/-- Whether some pair of consecutive waypoints is more than 80 km apart —
what the specification claims is rejected locally. -/
def hasFarConsecutivePair : List Coord → Bool
  | c1 :: c2 :: rest => pairTooFar c1 c2 || hasFarConsecutivePair (c2 :: rest)
  | _ => false

/-- Per-point validation loop of `callOpenRouteService`, from index `i`:
rejects out-of-range coordinates, then coordinates with both `|lat| < 0.1`
and `|lng| < 0.1`. -/
def coordCheckFrom : Nat → List Coord → Option ORSError
  | _, [] => none
  | i, c :: rest =>
    if c.lat < -90 ∨ 90 < c.lat ∨ c.lng < -180 ∨ 180 < c.lng then
      some (ORSError.invalidCoord i)
    else if |c.lat| < 1 / 10 ∧ |c.lng| < 1 / 10 then
      some (ORSError.nearZeroCoord i)
    else coordCheckFrom (i + 1) rest

/-- Per-point validation of the full coordinate list. -/
def coordCheck (coords : List Coord) : Option ORSError :=
  coordCheckFrom 0 coords

/-- The internal `while (attempt <= maxRetries)` network loop of
`callOpenRouteService`: HTTP 400, 404, 401 and 403 are thrown immediately;
other failures back off and retry; the loop gives up after `maxRetries + 1`
network calls.  Returns the result together with the number of network
calls made.  `fuel` is `maxRetries + 1 - attempt`. -/
def orsNetLoop (net : Nat → NetOutcome) (profile : String) (maxRetries : Nat) :
    Nat → Nat → Except ORSError ORSResponse × Nat
  | _, 0 => (Except.error (ORSError.transientFailed (maxRetries + 1)), 0)
  | a, fuel + 1 =>
    match net a with
    | NetOutcome.success resp => (Except.ok resp, 1)
    | NetOutcome.httpError s =>
      if s = 400 then (Except.error ORSError.badRequest, 1)
      else if s = 404 then (Except.error (ORSError.profileNotFound profile), 1)
      else if s = 401 ∨ s = 403 then (Except.error (ORSError.authError s), 1)
      else
        let r := orsNetLoop net profile maxRetries (a + 1) fuel
        (r.1, r.2 + 1)
    | NetOutcome.netError =>
      let r := orsNetLoop net profile maxRetries (a + 1) fuel
      (r.1, r.2 + 1)

/-- Embedding of `callOpenRouteService(coordinates, profile, _, maxRetries)`:
API-key check, then the local first-pair 80 km check, then per-point
validation, then the network loop.  Returns the result together with the
number of network calls performed. -/
def callORS (hasKey : Bool) (net : Nat → NetOutcome) (coords : List Coord)
    (profile : String) (maxRetries : Nat) : Except ORSError ORSResponse × Nat :=
  if hasKey = false then (Except.error ORSError.noApiKey, 0)
  else if firstPairTooFar coords then (Except.error ORSError.tooFarApart, 0)
  else
    match coordCheck coords with
    | some e => (Except.error e, 0)
    | none => orsNetLoop net profile maxRetries 0 (maxRetries + 1)

/-- The walking proposer's point count:
`Math.min(Math.max(6, Math.floor(targetDistance * 1.2)), 10)`. -/
def walkNumPoints (targetDistance : ℚ) : Nat :=
  min (max 6 (Int.toNat ⌊targetDistance * (6 / 5)⌋)) 10

/-- Appends the first waypoint again (`waypoints.push([waypoints[0][0],
waypoints[0][1]])`) to force a closed loop. -/
def closeLoop (pts : List Coord) : List Coord :=
  match pts.head? with
  | some p => pts ++ [p]
  | none => pts

/-- The circular walking waypoint constructor: `numPoints` points on a circle
of `radiusDeg` degrees around `center`, point `i` at angle `2·π·i/numPoints`
(here `cosF`/`sinF` are evaluated at the turn fraction `i / numPoints`,
with `lat` offset by cosine and `lng` by sine as in the source), closed by
re-appending the first point. -/
def circleWaypoints (cosF sinF : ℚ → ℚ) (center : Coord) (radiusDeg : ℚ)
    (numPoints : Nat) : List Coord :=
  closeLoop ((List.range numPoints).map fun i : Nat =>
    { lng := center.lng + radiusDeg * sinF ((i : ℚ) / (numPoints : ℚ))
      lat := center.lat + radiusDeg * cosF ((i : ℚ) / (numPoints : ℚ)) })

/-- Loop body of `validateAndRetryRoute` in `generateWalkingRoute`.  One
iteration per strategy attempt: call the oracle; on success compute the
measured distance and accept it when it lies in the ideal 5–15 km band,
shrink the radius by 0.8 when above 15 km, grow it by 1.3 when below 5 km
(both regenerate the circle waypoints); on a caught error rethrow when this
was the last attempt and otherwise continue with the same waypoints.  After
the loop the generic exhaustion error is thrown.  Returns the result and the
number of oracle invocations.  `fuel` is `maxRetries - attempt`. -/
def walkLoopAux (cosF sinF : ℚ → ℚ)
    (oracle : Nat → List Coord → Except ORSError ORSResponse)
    (center : Coord) (numPoints maxRetries : Nat) :
    Nat → Nat → List Coord → ℚ → Except WalkError ORSResponse × Nat
  | _, 0, _, _ => (Except.error (WalkError.exhausted maxRetries), 0)
  | attempt, fuel + 1, ws, radius =>
    match oracle attempt ws with
    | Except.ok resp =>
      match resp.features.head? with
      | none =>
        if attempt = maxRetries - 1 then
          (Except.error (WalkError.caught CaughtErr.undefinedAccess), 1)
        else
          let r := walkLoopAux cosF sinF oracle center numPoints maxRetries
            (attempt + 1) fuel ws radius
          (r.1, r.2 + 1)
      | some f =>
        let d := featureKm f
        if 5 ≤ d ∧ d ≤ 15 then (Except.ok resp, 1)
        else if 15 < d then
          let radius2 := radius * (8 / 10)
          let ws2 := circleWaypoints cosF sinF center (radius2 / 111) numPoints
          let r := walkLoopAux cosF sinF oracle center numPoints maxRetries
            (attempt + 1) fuel ws2 radius2
          (r.1, r.2 + 1)
        else if d < 5 then
          let radius2 := radius * (13 / 10)
          let ws2 := circleWaypoints cosF sinF center (radius2 / 111) numPoints
          let r := walkLoopAux cosF sinF oracle center numPoints maxRetries
            (attempt + 1) fuel ws2 radius2
          (r.1, r.2 + 1)
        else (Except.ok resp, 1)
    | Except.error e =>
      if attempt = maxRetries - 1 then
        (Except.error (WalkError.caught (CaughtErr.api e)), 1)
      else
        let r := walkLoopAux cosF sinF oracle center numPoints maxRetries
          (attempt + 1) fuel ws radius
        (r.1, r.2 + 1)

/-- Embedding of `validateAndRetryRoute(initialWaypoints, targetDist,
maxRetries)` with the enclosing scope's `baseRadiusKm`, `centerLat/Lng` and
`numPoints` passed explicitly.  The oracle stands for one
`callOpenRouteService(currentWaypoints, foot-walking, targetDist, 2)` call
per strategy attempt. -/
def validateAndRetryRouteRun (cosF sinF : ℚ → ℚ)
    (oracle : Nat → List Coord → Except ORSError ORSResponse)
    (center : Coord) (numPoints : Nat) (initialWaypoints : List Coord)
    (baseRadiusKm : ℚ) (maxRetries : Nat) : Except WalkError ORSResponse × Nat :=
  walkLoopAux cosF sinF oracle center numPoints maxRetries 0 maxRetries
    initialWaypoints baseRadiusKm

/-- Embedding of `generateWalkingRoute` downstream of geocoding: fixed 10 km
target, conservative base radius `max(target / (2·π·3), 0.5)` (the value of
`π` is a parameter, `piApprox`), circle waypoint seed, the adaptive retry
loop with `maxRetries = 8`, the final 3 km / 20 km validation and the route
assembly.  Returns the result and the number of provider calls. -/
def generateWalkingRouteE (cosF sinF : ℚ → ℚ) (piApprox : ℚ)
    (oracle : Nat → List Coord → Except ORSError ORSResponse)
    (center : Coord) : Except WalkFullError Route × Nat :=
  let targetDistance : ℚ := 10
  let baseRadiusKm := max (targetDistance / (2 * piApprox * 3)) (1 / 2)
  let radiusDeg := baseRadiusKm / 111
  let numPoints := walkNumPoints targetDistance
  let ws0 := circleWaypoints cosF sinF center radiusDeg numPoints
  match validateAndRetryRouteRun cosF sinF oracle center numPoints ws0 baseRadiusKm 8 with
  | (Except.error e, n) => (Except.error (WalkFullError.loopErr e), n)
  | (Except.ok resp, n) =>
    match resp.features.head? with
    | none => (Except.error WalkFullError.noRoute, n)
    | some f =>
      let totalDuration := sumDur f.segments
      let finalDistanceKm := sumDist f.segments / 1000
      if finalDistanceKm < 3 then
        (Except.error (WalkFullError.finalTooShort finalDistanceKm), n)
      else if 20 < finalDistanceKm then
        (Except.error (WalkFullError.finalTooLong finalDistanceKm), n)
      else
        match f.geometry.head?, f.geometry.getLast? with
        | some sp, some ep =>
          let estimated := totalDuration / 60
          let estimated :=
            if estimated = 0 then
              match f.summaryDuration with
              | some sd => sd / 60
              | none => finalDistanceKm * 12
            else estimated
          (Except.ok
            { distance := finalDistanceKm
              estimatedDuration := estimated
              path := f.geometry
              startPoint := sp
              endPoint := ep
              elevationGain := sumElev f.segments
              isMultiDay := false
              dayDetails := [] }, n)
        | _, _ => (Except.error WalkFullError.emptyGeometry, n)

/-- The cycling profile fallback of `generateCityRouteWithRetry`:
`cyclingProfiles = [cycling-road, cycling-regular]`, and a 404 profile error
moves to the next profile while one remains. -/
def nextCyclingProfile (p : String) : Option String :=
  if p = "cycling-road" then some "cycling-regular" else none

/-- Whether a caught error satisfies the source's
`apiError.response?.status === 404 && apiError.message.includes(profile not
found)` test — exactly the 404 profile error thrown by
`callOpenRouteService`. -/
def isProfileErr : CaughtErr → Bool
  | CaughtErr.api (ORSError.profileNotFound _) => true
  | _ => false

/-- Loop body of `generateCityRouteWithRetry`.  Waypoints are the start/end
pair; `origStart` is `waypoints[0]` of the seed.  On success: accept any
measured 5–60 km distance, double the end-point offset when below 5 km and
shrink it to 0.6 when above 60 km (both only while `attempt < 3`), otherwise
accept whatever was obtained.  On a caught error: switch cycling profile on
a 404 profile error while one remains (without consuming the last-attempt
check), otherwise pick a fresh end point at `attempt * 45` degrees and radius
`0.05 + attempt * 0.02` degrees around the original start, rethrowing when
this was the last attempt.  After the loop the `CYCLING_ROUTE_FAILED` error
is thrown.  Returns the result and the number of oracle invocations. -/
def cycLoopAux (cosD sinD : ℚ → ℚ)
    (oracle : Nat → String → Coord × Coord → Except ORSError ORSResponse)
    (origStart : Coord) (maxRetries : Nat) :
    Nat → Nat → Coord × Coord → String → Except CycError (ORSResponse × ℚ) × Nat
  | _, 0, _, _ => (Except.error (CycError.failed maxRetries), 0)
  | attempt, fuel + 1, ws, prof =>
    match oracle attempt prof ws with
    | Except.ok resp =>
      match resp.features.head? with
      | none =>
        -- The TypeError from reading features[0] of an empty array is
        -- caught by the same catch block as API errors.
        match (if isProfileErr CaughtErr.undefinedAccess then nextCyclingProfile prof else none) with
        | some p2 =>
          let r := cycLoopAux cosD sinD oracle origStart maxRetries
            (attempt + 1) fuel ws p2
          (r.1, r.2 + 1)
        | none =>
          let baseRadius : ℚ := 1 / 20 + (attempt : ℚ) * (1 / 50)
          let ws2 : Coord × Coord :=
            (origStart, { lng := origStart.lng + cosD ((attempt : ℚ) * 45) * baseRadius
                          lat := origStart.lat + sinD ((attempt : ℚ) * 45) * baseRadius })
          if attempt = maxRetries - 1 then
            (Except.error (CycError.caught CaughtErr.undefinedAccess), 1)
          else
            let r := cycLoopAux cosD sinD oracle origStart maxRetries
              (attempt + 1) fuel ws2 prof
            (r.1, r.2 + 1)
      | some f =>
        let d := featureKm f
        if 5 ≤ d ∧ d ≤ 60 then (Except.ok (resp, d), 1)
        else if d < 5 ∧ attempt < 3 then
          let ws2 : Coord × Coord :=
            (ws.1, { lng := ws.1.lng + (ws.2.lng - ws.1.lng) * 2
                     lat := ws.1.lat + (ws.2.lat - ws.1.lat) * 2 })
          let r := cycLoopAux cosD sinD oracle origStart maxRetries
            (attempt + 1) fuel ws2 prof
          (r.1, r.2 + 1)
        else if 60 < d ∧ attempt < 3 then
          let ws2 : Coord × Coord :=
            (ws.1, { lng := ws.1.lng + (ws.2.lng - ws.1.lng) * (6 / 10)
                     lat := ws.1.lat + (ws.2.lat - ws.1.lat) * (6 / 10) })
          let r := cycLoopAux cosD sinD oracle origStart maxRetries
            (attempt + 1) fuel ws2 prof
          (r.1, r.2 + 1)
        else (Except.ok (resp, d), 1)
    | Except.error e =>
      -- The catch block of generateCityRouteWithRetry: a 404 profile error
      -- first tries the next cycling profile (this path skips the
      -- last-attempt check); every other error adjusts coordinates around
      -- the original start and rethrows only on the last attempt.
      match (if isProfileErr (CaughtErr.api e) then nextCyclingProfile prof else none) with
      | some p2 =>
        let r := cycLoopAux cosD sinD oracle origStart maxRetries
          (attempt + 1) fuel ws p2
        (r.1, r.2 + 1)
      | none =>
        let baseRadius : ℚ := 1 / 20 + (attempt : ℚ) * (1 / 50)
        let ws2 : Coord × Coord :=
          (origStart, { lng := origStart.lng + cosD ((attempt : ℚ) * 45) * baseRadius
                        lat := origStart.lat + sinD ((attempt : ℚ) * 45) * baseRadius })
        if attempt = maxRetries - 1 then
          (Except.error (CycError.caught (CaughtErr.api e)), 1)
        else
          let r := cycLoopAux cosD sinD oracle origStart maxRetries
            (attempt + 1) fuel ws2 prof
          (r.1, r.2 + 1)

/-- Embedding of `generateCityRouteWithRetry(waypoints, profile, target,
name, maxRetries)`.  The source ignores its `profile` argument and always
starts at `cyclingProfiles[0] = cycling-road`; `originalStart` is
`waypoints[0]`. -/
def cycRun (cosD sinD : ℚ → ℚ)
    (oracle : Nat → String → Coord × Coord → Except ORSError ORSResponse)
    (ws : Coord × Coord) (maxRetries : Nat) : Except CycError (ORSResponse × ℚ) × Nat :=
  cycLoopAux cosD sinD oracle ws.1 maxRetries 0 maxRetries ws "cycling-road"

/-- The route-object assembly of `generateCyclingRoute` from the two day
features and the two accepted day distances: total distance `d1 + d2`,
duration normalization (speed-based `(total / 20) * 60` when the
provider-summed minutes are under 10 while the distance exceeds 20 km),
concatenated path, and the two `dayDetails` entries whose start and end
points are the first and last coordinates of each day's geometry. -/
def assembleCyclingRoute (f1 f2 : Feature) (d1 d2 : ℚ) : Except CycFullError Route :=
  match f1.geometry.head?, f1.geometry.getLast?, f2.geometry.head?, f2.geometry.getLast? with
  | some s1, some e1, some s2, some e2 =>
    let totalDistance := d1 + d2
    let totalDurationSeconds := sumDur f1.segments + sumDur f2.segments
    let calculatedDurationMinutes := totalDurationSeconds / 60
    let estimatedDurationMinutes := totalDistance / 20 * 60
    let totalDuration :=
      if calculatedDurationMinutes < 10 ∧ 20 < totalDistance then
        estimatedDurationMinutes
      else calculatedDurationMinutes
    Except.ok
      { distance := totalDistance
        estimatedDuration := totalDuration
        path := f1.geometry ++ f2.geometry
        startPoint := s1
        endPoint := e2
        elevationGain := sumElev f1.segments + sumElev f2.segments
        isMultiDay := true
        dayDetails :=
          [{ day := 1, distance := d1, duration := sumDur f1.segments / 60
             startPoint := s1, endPoint := e1, path := f1.geometry },
           { day := 2, distance := d2, duration := sumDur f2.segments / 60
             startPoint := s2, endPoint := e2, path := f2.geometry }] }
  | _, _, _, _ => Except.error CycFullError.processing

/-- Embedding of `generateCyclingRoute` downstream of geocoding and random
end-point seeding: day 1 searched from `(start, day1End)`, then
`updatedDay2Waypoints = [day1Waypoints[1], day2Waypoints[1]] =
(day1End, day2End)` — the originally proposed day-1 end, not the end point
actually used or reached by day 1's search — then the response-structure
validation and the assembly. -/
def generateCyclingRouteE (cosD sinD : ℚ → ℚ)
    (oracle1 oracle2 : Nat → String → Coord × Coord → Except ORSError ORSResponse)
    (start day1End day2End : Coord) : Except CycFullError Route :=
  match (cycRun cosD sinD oracle1 (start, day1End) 8).1 with
  | Except.error e => Except.error (CycFullError.gen e)
  | Except.ok (resp1, d1) =>
    match (cycRun cosD sinD oracle2 (day1End, day2End) 8).1 with
    | Except.error e => Except.error (CycFullError.gen e)
    | Except.ok (resp2, d2) =>
      match resp1.features.head?, resp2.features.head? with
      | some f1, some f2 => assembleCyclingRoute f1 f2 d1 d2
      | _, _ => Except.error CycFullError.invalidStructure

/-- Message of an error thrown by `callOpenRouteService` (interpolated
details beyond the constructor's payload elided). -/
def orsErrorMessage : ORSError → String
  | ORSError.noApiKey => "OPENROUTESERVICE_API_KEY not configured in environment variables"
  | ORSError.tooFarApart => "Points too far apart for routing"
  | ORSError.invalidCoord i => "Invalid coordinates at index " ++ toString i
  | ORSError.nearZeroCoord i => "Coordinates too close to 0,0 at index " ++ toString i
  | ORSError.badRequest => "Invalid request parameters - Status 400"
  | ORSError.profileNotFound p => "Invalid profile or endpoint - Status 404: " ++ p ++ " profile not found"
  | ORSError.authError s => "Authentication error - Status " ++ toString s ++ ": Check API key validity"
  | ORSError.transientFailed n => "Failed to call OpenRouteService after " ++ toString n ++ " attempts"

/-- Message of a caught exception. -/
def caughtErrMessage : CaughtErr → String
  | CaughtErr.api e => orsErrorMessage e
  | CaughtErr.undefinedAccess => "Cannot read properties of undefined"

/-- Message of a terminal `validateAndRetryRoute` failure.  Note the
exhaustion message carries only the attempt count — no measured distance. -/
def walkErrorMessage : WalkError → String
  | WalkError.caught e => caughtErrMessage e
  | WalkError.exhausted n => "Failed to generate acceptable route after " ++ toString n ++ " attempts"

/-- Constant-zero stand-in for the abstract cosine/sine parameters in
concrete runs whose oracles ignore the generated waypoints. -/
def czero : ℚ → ℚ := fun _ => 0

/-- A response feature with a single segment of the given distance (km) and
duration (seconds), and the given path geometry. -/
def mkFeat (distKm dur : ℚ) (geom : List Coord) : Feature :=
  { segments := [{ distance := distKm * 1000, duration := dur, elevation_gain := 0 }]
    geometry := geom
    summaryDuration := none }

/-- A provider response with one feature, a single segment of the given
distance (km) and duration (seconds), and the given path geometry. -/
def mkResp (distKm dur : ℚ) (geom : List Coord) : ORSResponse :=
  { features := [mkFeat distKm dur geom] }

/-- The fixed path geometry used by the walking mocks. -/
def geomW : List Coord := [{ lng := 34, lat := 50 }, { lng := 341 / 10, lat := 50 }]

/-- A city-center coordinate used by the concrete scenarios. -/
def centerC : Coord := { lng := 34, lat := 50 }

/-- A small concrete seed waypoint list for loop-level scenarios. -/
def wsC : List Coord := [{ lng := 34, lat := 50 }, { lng := 34, lat := 501 / 10 }]

/-- Mock provider measuring 18 km, 16 km and 13 km on attempts 1–3
(the shrinking-convergence scenario). -/
def oracle183 : Nat → List Coord → Except ORSError ORSResponse := fun k _ =>
  if k = 0 then Except.ok (mkResp 18 5400 geomW)
  else if k = 1 then Except.ok (mkResp 16 4800 geomW)
  else Except.ok (mkResp 13 3900 geomW)

/-- Mock provider that always measures 2 km (the exhaustion scenario). -/
def oracle2km : Nat → List Coord → Except ORSError ORSResponse := fun _ _ =>
  Except.ok (mkResp 2 1440 geomW)

/-- Mock provider that always measures 18 km (acceptable for walking but
outside the ideal band). -/
def oracle18 : Nat → List Coord → Except ORSError ORSResponse := fun _ _ =>
  Except.ok (mkResp 18 5400 geomW)

/-- Mock provider that always measures 10 km (the ideal walking scenario). -/
def oracle10 : Nat → List Coord → Except ORSError ORSResponse := fun _ _ =>
  Except.ok (mkResp 10 7200 geomW)

/-- Adversarial walking-loop provider that always fails with HTTP 401. -/
def oracleAuthW : Nat → List Coord → Except ORSError ORSResponse := fun _ _ =>
  Except.error (ORSError.authError 401)

/-- Adversarial cycling-loop provider that always fails with HTTP 401. -/
def oracleAuthC : Nat → String → Coord × Coord → Except ORSError ORSResponse := fun _ _ _ =>
  Except.error (ORSError.authError 401)

/-- The path geometry returned by the day-1 cycling mock: it ends at
latitude 50.2. -/
def geomD1 : List Coord := [{ lng := 34, lat := 50 }, { lng := 34, lat := 251 / 5 }]

/-- The path geometry returned by the day-2 cycling mock: it starts at
longitude 34.3, latitude 50.5 — not where the day-1 path ended. -/
def geomD2 : List Coord := [{ lng := 343 / 10, lat := 101 / 2 }, { lng := 34, lat := 507 / 10 }]

/-- Day-1 cycling mock: accepts at once with 25 km. -/
def oracleDay1 : Nat → String → Coord × Coord → Except ORSError ORSResponse := fun _ _ _ =>
  Except.ok (mkResp 25 3600 geomD1)

/-- Day-2 cycling mock: accepts at once with 25 km. -/
def oracleDay2 : Nat → String → Coord × Coord → Except ORSError ORSResponse := fun _ _ _ =>
  Except.ok (mkResp 25 3600 geomD2)

/-- The route assembled from the always-10 km walking mock. -/
def routeC10 : Route :=
  { distance := 10
    estimatedDuration := 120
    path := geomW
    startPoint := { lng := 34, lat := 50 }
    endPoint := { lng := 341 / 10, lat := 50 }
    elevationGain := 0
    isMultiDay := false
    dayDetails := [] }

/-- The cycling route assembled from the two 25 km day mocks. -/
def routeCyc : Route :=
  { distance := 50
    estimatedDuration := 120
    path := geomD1 ++ geomD2
    startPoint := { lng := 34, lat := 50 }
    endPoint := { lng := 34, lat := 507 / 10 }
    elevationGain := 0
    isMultiDay := true
    dayDetails :=
      [{ day := 1, distance := 25, duration := 60
         startPoint := { lng := 34, lat := 50 }
         endPoint := { lng := 34, lat := 251 / 5 }
         path := geomD1 },
       { day := 2, distance := 25, duration := 60
         startPoint := { lng := 343 / 10, lat := 101 / 2 }
         endPoint := { lng := 34, lat := 507 / 10 }
         path := geomD2 }] }

/-- Waypoint list whose first two points are 11.1 km apart but whose second
and third points are about 211 km apart. -/
def w3 : List Coord :=
  [{ lng := 34, lat := 50 }, { lng := 34, lat := 501 / 10 }, { lng := 34, lat := 52 }]

/-- Waypoint pair more than 80 km apart (111 km). -/
def wFar : List Coord := [{ lng := 34, lat := 50 }, { lng := 34, lat := 51 }]

/-- Network mock that always succeeds with a fixed 10 km response. -/
def netOk : Nat → NetOutcome := fun _ =>
  NetOutcome.success (mkResp 10 7200 geomW)

/-- Network mock that always answers HTTP 401. -/
def net401 : Nat → NetOutcome := fun _ => NetOutcome.httpError 401

/-- Helper: the walking retry loop performs at most `fuel` oracle calls. -/
theorem walkLoopAux_count_le (cosF sinF : ℚ → ℚ)
    (oracle : Nat → List Coord → Except ORSError ORSResponse)
    (center : Coord) (numPoints maxRetries : Nat) :
    ∀ fuel attempt ws radius,
      (walkLoopAux cosF sinF oracle center numPoints maxRetries attempt fuel ws radius).2 ≤ fuel := by
  intro fuel
  induction fuel with
  | zero => intro attempt ws radius; simp [walkLoopAux]
  | succ f ih =>
    intro attempt ws radius
    have hone : 1 ≤ f + 1 := Nat.succ_le_succ (Nat.zero_le f)
    have hrec : ∀ ws2 radius2,
        (walkLoopAux cosF sinF oracle center numPoints maxRetries (attempt + 1) f ws2 radius2).2 + 1 ≤ f + 1 :=
      fun ws2 radius2 => Nat.succ_le_succ (ih (attempt + 1) ws2 radius2)
    simp only [walkLoopAux]
    split
    · split
      · split
        · exact hone
        · exact hrec _ _
      · split
        · exact hone
        · split
          · exact hrec _ _
          · split
            · exact hrec _ _
            · exact hone
    · split
      · exact hone
      · exact hrec _ _

/-- Helper: the per-day cycling retry loop performs at most `fuel` oracle
calls. -/
theorem cycLoopAux_count_le (cosD sinD : ℚ → ℚ)
    (oracle : Nat → String → Coord × Coord → Except ORSError ORSResponse)
    (origStart : Coord) (maxRetries : Nat) :
    ∀ fuel attempt ws prof,
      (cycLoopAux cosD sinD oracle origStart maxRetries attempt fuel ws prof).2 ≤ fuel := by
  intro fuel
  induction fuel with
  | zero => intro attempt ws prof; simp [cycLoopAux]
  | succ f ih =>
    intro attempt ws prof
    have hone : 1 ≤ f + 1 := Nat.succ_le_succ (Nat.zero_le f)
    have hrec : ∀ ws2 prof2,
        (cycLoopAux cosD sinD oracle origStart maxRetries (attempt + 1) f ws2 prof2).2 + 1 ≤ f + 1 :=
      fun ws2 prof2 => Nat.succ_le_succ (ih (attempt + 1) ws2 prof2)
    simp only [cycLoopAux]
    split
    · split
      · split
        · exact hrec _ _
        · split
          · exact hone
          · exact hrec _ _
      · split
        · exact hone
        · split
          · exact hrec _ _
          · split
            · exact hrec _ _
            · exact hone
    · split
      · exact hrec _ _
      · split
        · exact hone
        · exact hrec _ _

/-- C1: both retry loops — `validateAndRetryRoute` for walking and
`generateCityRouteWithRetry` per cycling day — invoked with
`maxRetries = N` make at most `N` strategy attempts (oracle invocations)
before producing their terminal outcome; this holds for every sequence of
provider responses, successes of any measured distance or errors of any
kind, because both embeddings are total functions whose recursion consumes
one unit of the attempt budget per iteration. -/
theorem c1_retry_loops_attempt_bound (cosF sinF cosD sinD : ℚ → ℚ)
    (oracleW : Nat → List Coord → Except ORSError ORSResponse)
    (oracleC : Nat → String → Coord × Coord → Except ORSError ORSResponse)
    (center : Coord) (numPoints : Nat) (ws0 : List Coord) (baseRadiusKm : ℚ)
    (wsPair : Coord × Coord) (n nc : Nat) :
    (validateAndRetryRouteRun cosF sinF oracleW center numPoints ws0 baseRadiusKm n).2 ≤ n ∧
    (cycRun cosD sinD oracleC wsPair nc).2 ≤ nc := by
  constructor
  · exact walkLoopAux_count_le cosF sinF oracleW center numPoints n n 0 ws0 baseRadiusKm
  · exact cycLoopAux_count_le cosD sinD oracleC wsPair.1 nc nc 0 wsPair "cycling-road"

/-- Helper: a walking-loop attempt whose measured distance lies in the
ideal 5–15 km band returns that response at once. -/
theorem walkLoopAux_step_accept (cosF sinF : ℚ → ℚ)
    (oracle : Nat → List Coord → Except ORSError ORSResponse)
    (center : Coord) (numPoints maxRetries attempt fuel : Nat)
    (ws : List Coord) (radius : ℚ) (resp : ORSResponse) (f : Feature)
    (ho : oracle attempt ws = Except.ok resp) (hf : resp.features.head? = some f)
    (hd : 5 ≤ featureKm f ∧ featureKm f ≤ 15) :
    walkLoopAux cosF sinF oracle center numPoints maxRetries attempt (fuel + 1) ws radius
      = (Except.ok resp, 1) := by
  simp only [walkLoopAux, ho, hf]
  rw [if_pos hd]

/-- Helper: a walking-loop attempt measuring above 15 km shrinks the radius
by 0.8, regenerates the circle waypoints and recurses. -/
theorem walkLoopAux_step_tooLong (cosF sinF : ℚ → ℚ)
    (oracle : Nat → List Coord → Except ORSError ORSResponse)
    (center : Coord) (numPoints maxRetries attempt fuel : Nat)
    (ws : List Coord) (radius : ℚ) (resp : ORSResponse) (f : Feature)
    (ho : oracle attempt ws = Except.ok resp) (hf : resp.features.head? = some f)
    (hd : 15 < featureKm f) :
    walkLoopAux cosF sinF oracle center numPoints maxRetries attempt (fuel + 1) ws radius
      = ((walkLoopAux cosF sinF oracle center numPoints maxRetries (attempt + 1) fuel
            (circleWaypoints cosF sinF center (radius * (8 / 10) / 111) numPoints)
            (radius * (8 / 10))).1,
         (walkLoopAux cosF sinF oracle center numPoints maxRetries (attempt + 1) fuel
            (circleWaypoints cosF sinF center (radius * (8 / 10) / 111) numPoints)
            (radius * (8 / 10))).2 + 1) := by
  have hna : ¬(5 ≤ featureKm f ∧ featureKm f ≤ 15) := fun h => absurd hd (not_lt.mpr h.2)
  simp only [walkLoopAux, ho, hf]
  rw [if_neg hna, if_pos hd]

/-- Helper: a walking-loop attempt measuring below 5 km grows the radius by
1.3, regenerates the circle waypoints and recurses. -/
theorem walkLoopAux_step_tooShort (cosF sinF : ℚ → ℚ)
    (oracle : Nat → List Coord → Except ORSError ORSResponse)
    (center : Coord) (numPoints maxRetries attempt fuel : Nat)
    (ws : List Coord) (radius : ℚ) (resp : ORSResponse) (f : Feature)
    (ho : oracle attempt ws = Except.ok resp) (hf : resp.features.head? = some f)
    (hd : featureKm f < 5) :
    walkLoopAux cosF sinF oracle center numPoints maxRetries attempt (fuel + 1) ws radius
      = ((walkLoopAux cosF sinF oracle center numPoints maxRetries (attempt + 1) fuel
            (circleWaypoints cosF sinF center (radius * (13 / 10) / 111) numPoints)
            (radius * (13 / 10))).1,
         (walkLoopAux cosF sinF oracle center numPoints maxRetries (attempt + 1) fuel
            (circleWaypoints cosF sinF center (radius * (13 / 10) / 111) numPoints)
            (radius * (13 / 10))).2 + 1) := by
  have hna : ¬(5 ≤ featureKm f ∧ featureKm f ≤ 15) := fun h => absurd h.1 (not_le.mpr hd)
  have hnl : ¬(15 < featureKm f) := not_lt.mpr (le_trans hd.le (by norm_num))
  simp only [walkLoopAux, ho, hf]
  rw [if_neg hna, if_neg hnl, if_pos hd]

/-- Helper: an error caught on the last walking attempt is rethrown. -/
theorem walkLoopAux_step_error_last (cosF sinF : ℚ → ℚ)
    (oracle : Nat → List Coord → Except ORSError ORSResponse)
    (center : Coord) (numPoints maxRetries attempt fuel : Nat)
    (ws : List Coord) (radius : ℚ) (e : ORSError)
    (ho : oracle attempt ws = Except.error e) (hlast : attempt = maxRetries - 1) :
    walkLoopAux cosF sinF oracle center numPoints maxRetries attempt (fuel + 1) ws radius
      = (Except.error (WalkError.caught (CaughtErr.api e)), 1) := by
  simp only [walkLoopAux, ho]
  rw [if_pos hlast]

/-- Helper: an error caught before the last walking attempt continues with
the same waypoints and radius. -/
theorem walkLoopAux_step_error_cont (cosF sinF : ℚ → ℚ)
    (oracle : Nat → List Coord → Except ORSError ORSResponse)
    (center : Coord) (numPoints maxRetries attempt fuel : Nat)
    (ws : List Coord) (radius : ℚ) (e : ORSError)
    (ho : oracle attempt ws = Except.error e) (hlast : ¬(attempt = maxRetries - 1)) :
    walkLoopAux cosF sinF oracle center numPoints maxRetries attempt (fuel + 1) ws radius
      = ((walkLoopAux cosF sinF oracle center numPoints maxRetries (attempt + 1) fuel ws radius).1,
         (walkLoopAux cosF sinF oracle center numPoints maxRetries (attempt + 1) fuel ws radius).2 + 1) := by
  simp only [walkLoopAux, ho]
  rw [if_neg hlast]

/-- Helper: a constant provider whose measured distance is outside the ideal
band makes the walking loop consume its entire budget and throw the generic
exhaustion error. -/
theorem walkLoopAux_const_reject (cosF sinF : ℚ → ℚ) (center : Coord)
    (numPoints maxRetries : Nat) (resp : ORSResponse) (f : Feature)
    (hf : resp.features.head? = some f)
    (hd : ¬(5 ≤ featureKm f ∧ featureKm f ≤ 15)) :
    ∀ fuel attempt ws radius,
      walkLoopAux cosF sinF (fun _ _ => Except.ok resp) center numPoints maxRetries
          attempt fuel ws radius
        = (Except.error (WalkError.exhausted maxRetries), fuel) := by
  intro fuel
  induction fuel with
  | zero => intro attempt ws radius; simp [walkLoopAux]
  | succ n ih =>
    intro attempt ws radius
    by_cases hlong : 15 < featureKm f
    · rw [walkLoopAux_step_tooLong cosF sinF _ center numPoints maxRetries attempt n
        ws radius resp f rfl hf hlong, ih]
    · have hshort : featureKm f < 5 := by
        rcases not_and_or.mp hd with h5 | h15
        · exact not_le.mp h5
        · exact absurd (not_lt.mp hlong) h15
      rw [walkLoopAux_step_tooShort cosF sinF _ center numPoints maxRetries attempt n
        ws radius resp f rfl hf hshort, ih]

/-- Helper: a provider that always throws makes the walking loop retry with
unchanged waypoints until the budget is gone, then rethrow the error caught
on the last attempt. -/
theorem walkLoopAux_const_error (cosF sinF : ℚ → ℚ) (center : Coord)
    (numPoints maxRetries : Nat) (e : ORSError) :
    ∀ fuel attempt ws radius, 1 ≤ fuel → attempt + fuel = maxRetries →
      walkLoopAux cosF sinF (fun _ _ => Except.error e) center numPoints maxRetries
          attempt fuel ws radius
        = (Except.error (WalkError.caught (CaughtErr.api e)), fuel) := by
  intro fuel
  induction fuel with
  | zero => intro attempt ws radius h0; omega
  | succ n ih =>
    intro attempt ws radius _ hsum
    cases n with
    | zero =>
      have hlast : attempt = maxRetries - 1 := by omega
      exact walkLoopAux_step_error_last cosF sinF _ center numPoints maxRetries attempt 0
        ws radius e rfl hlast
    | succ m =>
      have hnot : ¬(attempt = maxRetries - 1) := by omega
      rw [walkLoopAux_step_error_cont cosF sinF _ center numPoints maxRetries attempt (m + 1)
        ws radius e rfl hnot, ih (attempt + 1) ws radius (by omega) (by omega)]

/-- Helper: with remaining budget the walking loop makes at least one oracle
call. -/
theorem walkLoopAux_count_pos (cosF sinF : ℚ → ℚ)
    (oracle : Nat → List Coord → Except ORSError ORSResponse)
    (center : Coord) (numPoints maxRetries : Nat) :
    ∀ fuel attempt ws radius,
      1 ≤ (walkLoopAux cosF sinF oracle center numPoints maxRetries attempt (fuel + 1) ws radius).2 := by
  intro fuel attempt ws radius
  simp only [walkLoopAux]
  repeat' split
  all_goals exact Nat.succ_le_succ (Nat.zero_le _)

/-- Helper: a walking-loop run that made no oracle call had no budget and
produced the exhaustion error. -/
theorem walkLoopAux_count_zero (cosF sinF : ℚ → ℚ)
    (oracle : Nat → List Coord → Except ORSError ORSResponse)
    (center : Coord) (numPoints maxRetries : Nat) :
    ∀ fuel attempt ws radius,
      (walkLoopAux cosF sinF oracle center numPoints maxRetries attempt fuel ws radius).2 = 0 →
      (walkLoopAux cosF sinF oracle center numPoints maxRetries attempt fuel ws radius).1
        = Except.error (WalkError.exhausted maxRetries) := by
  intro fuel attempt ws radius h
  cases fuel with
  | zero => simp [walkLoopAux]
  | succ n =>
    have := walkLoopAux_count_pos cosF sinF oracle center numPoints maxRetries n attempt ws radius
    omega

/-- Helper: a cycling-day attempt whose measured distance lies in the
pragmatic 5–60 km band returns that response and distance at once. -/
theorem cycLoopAux_step_accept (cosD sinD : ℚ → ℚ)
    (oracle : Nat → String → Coord × Coord → Except ORSError ORSResponse)
    (origStart : Coord) (maxRetries attempt fuel : Nat) (ws : Coord × Coord)
    (prof : String) (resp : ORSResponse) (f : Feature)
    (ho : oracle attempt prof ws = Except.ok resp) (hf : resp.features.head? = some f)
    (hd : 5 ≤ featureKm f ∧ featureKm f ≤ 60) :
    cycLoopAux cosD sinD oracle origStart maxRetries attempt (fuel + 1) ws prof
      = (Except.ok (resp, featureKm f), 1) := by
  simp only [cycLoopAux, ho, hf]
  rw [if_pos hd]

/-- Helper: a cycling-day attempt measuring under 5 km within the first
three attempts doubles the end-point offset and recurses. -/
theorem cycLoopAux_step_short (cosD sinD : ℚ → ℚ)
    (oracle : Nat → String → Coord × Coord → Except ORSError ORSResponse)
    (origStart : Coord) (maxRetries attempt fuel : Nat) (ws : Coord × Coord)
    (prof : String) (resp : ORSResponse) (f : Feature)
    (ho : oracle attempt prof ws = Except.ok resp) (hf : resp.features.head? = some f)
    (hd : featureKm f < 5) (ha : attempt < 3) :
    cycLoopAux cosD sinD oracle origStart maxRetries attempt (fuel + 1) ws prof
      = ((cycLoopAux cosD sinD oracle origStart maxRetries (attempt + 1) fuel
            (ws.1, { lng := ws.1.lng + (ws.2.lng - ws.1.lng) * 2
                     lat := ws.1.lat + (ws.2.lat - ws.1.lat) * 2 }) prof).1,
         (cycLoopAux cosD sinD oracle origStart maxRetries (attempt + 1) fuel
            (ws.1, { lng := ws.1.lng + (ws.2.lng - ws.1.lng) * 2
                     lat := ws.1.lat + (ws.2.lat - ws.1.lat) * 2 }) prof).2 + 1) := by
  have hna : ¬(5 ≤ featureKm f ∧ featureKm f ≤ 60) := fun h => absurd h.1 (not_le.mpr hd)
  simp only [cycLoopAux, ho, hf]
  rw [if_neg hna, if_pos ⟨hd, ha⟩]

/-- Helper: a cycling-day attempt measuring over 60 km within the first
three attempts shrinks the end-point offset to 0.6 and recurses. -/
theorem cycLoopAux_step_long (cosD sinD : ℚ → ℚ)
    (oracle : Nat → String → Coord × Coord → Except ORSError ORSResponse)
    (origStart : Coord) (maxRetries attempt fuel : Nat) (ws : Coord × Coord)
    (prof : String) (resp : ORSResponse) (f : Feature)
    (ho : oracle attempt prof ws = Except.ok resp) (hf : resp.features.head? = some f)
    (hd : 60 < featureKm f) (ha : attempt < 3) :
    cycLoopAux cosD sinD oracle origStart maxRetries attempt (fuel + 1) ws prof
      = ((cycLoopAux cosD sinD oracle origStart maxRetries (attempt + 1) fuel
            (ws.1, { lng := ws.1.lng + (ws.2.lng - ws.1.lng) * (6 / 10)
                     lat := ws.1.lat + (ws.2.lat - ws.1.lat) * (6 / 10) }) prof).1,
         (cycLoopAux cosD sinD oracle origStart maxRetries (attempt + 1) fuel
            (ws.1, { lng := ws.1.lng + (ws.2.lng - ws.1.lng) * (6 / 10)
                     lat := ws.1.lat + (ws.2.lat - ws.1.lat) * (6 / 10) }) prof).2 + 1) := by
  have hna : ¬(5 ≤ featureKm f ∧ featureKm f ≤ 60) := fun h => absurd hd (not_lt.mpr h.2)
  have hns : ¬(featureKm f < 5 ∧ attempt < 3) := fun h =>
    absurd h.1 (not_lt.mpr (le_trans (by norm_num) hd.le))
  simp only [cycLoopAux, ho, hf]
  rw [if_neg hna, if_neg hns, if_pos ⟨hd, ha⟩]

/-- Helper: a non-profile error caught on the last cycling attempt is
rethrown (after the coordinate adjustment that is then discarded). -/
theorem cycLoopAux_step_error_last (cosD sinD : ℚ → ℚ)
    (oracle : Nat → String → Coord × Coord → Except ORSError ORSResponse)
    (origStart : Coord) (maxRetries attempt fuel : Nat) (ws : Coord × Coord)
    (prof : String) (e : ORSError)
    (ho : oracle attempt prof ws = Except.error e)
    (hp : isProfileErr (CaughtErr.api e) = false)
    (hlast : attempt = maxRetries - 1) :
    cycLoopAux cosD sinD oracle origStart maxRetries attempt (fuel + 1) ws prof
      = (Except.error (CycError.caught (CaughtErr.api e)), 1) := by
  simp only [cycLoopAux, ho, hp, Bool.false_eq_true, if_false]
  rw [if_pos hlast]

/-- Helper: a non-profile error caught before the last cycling attempt
retargets the end point around the original start at `attempt * 45` degrees
and continues. -/
theorem cycLoopAux_step_error_cont (cosD sinD : ℚ → ℚ)
    (oracle : Nat → String → Coord × Coord → Except ORSError ORSResponse)
    (origStart : Coord) (maxRetries attempt fuel : Nat) (ws : Coord × Coord)
    (prof : String) (e : ORSError)
    (ho : oracle attempt prof ws = Except.error e)
    (hp : isProfileErr (CaughtErr.api e) = false)
    (hlast : ¬(attempt = maxRetries - 1)) :
    cycLoopAux cosD sinD oracle origStart maxRetries attempt (fuel + 1) ws prof
      = ((cycLoopAux cosD sinD oracle origStart maxRetries (attempt + 1) fuel
            (origStart,
             { lng := origStart.lng + cosD ((attempt : ℚ) * 45) * (1 / 20 + (attempt : ℚ) * (1 / 50))
               lat := origStart.lat + sinD ((attempt : ℚ) * 45) * (1 / 20 + (attempt : ℚ) * (1 / 50)) })
            prof).1,
         (cycLoopAux cosD sinD oracle origStart maxRetries (attempt + 1) fuel
            (origStart,
             { lng := origStart.lng + cosD ((attempt : ℚ) * 45) * (1 / 20 + (attempt : ℚ) * (1 / 50))
               lat := origStart.lat + sinD ((attempt : ℚ) * 45) * (1 / 20 + (attempt : ℚ) * (1 / 50)) })
            prof).2 + 1) := by
  simp only [cycLoopAux, ho, hp, Bool.false_eq_true, if_false]
  rw [if_neg hlast]

/-- Helper: a provider that always fails with an auth error makes the
cycling loop regenerate candidate coordinates and retry until the budget is
gone, then rethrow the error caught on the last attempt. -/
theorem cycLoopAux_const_auth (cosD sinD : ℚ → ℚ) (origStart : Coord)
    (maxRetries st : Nat) :
    ∀ fuel attempt ws prof, 1 ≤ fuel → attempt + fuel = maxRetries →
      cycLoopAux cosD sinD (fun _ _ _ => Except.error (ORSError.authError st)) origStart
          maxRetries attempt fuel ws prof
        = (Except.error (CycError.caught (CaughtErr.api (ORSError.authError st))), fuel) := by
  intro fuel
  induction fuel with
  | zero => intro attempt ws prof h0; omega
  | succ n ih =>
    intro attempt ws prof _ hsum
    cases n with
    | zero =>
      have hlast : attempt = maxRetries - 1 := by omega
      exact cycLoopAux_step_error_last cosD sinD _ origStart maxRetries attempt 0
        ws prof (ORSError.authError st) rfl rfl hlast
    | succ m =>
      have hnot : ¬(attempt = maxRetries - 1) := by omega
      rw [cycLoopAux_step_error_cont cosD sinD _ origStart maxRetries attempt (m + 1)
        ws prof (ORSError.authError st) rfl rfl hnot,
        ih (attempt + 1) _ prof (by omega) (by omega)]

/-- Helper: with remaining budget the cycling loop makes at least one oracle
call. -/
theorem cycLoopAux_count_pos (cosD sinD : ℚ → ℚ)
    (oracle : Nat → String → Coord × Coord → Except ORSError ORSResponse)
    (origStart : Coord) (maxRetries : Nat) :
    ∀ fuel attempt ws prof,
      1 ≤ (cycLoopAux cosD sinD oracle origStart maxRetries attempt (fuel + 1) ws prof).2 := by
  intro fuel attempt ws prof
  simp only [cycLoopAux]
  repeat' split
  all_goals exact Nat.succ_le_succ (Nat.zero_le _)

/-- Helper: a cycling-loop run that made no oracle call had no budget and
produced the `CYCLING_ROUTE_FAILED` error. -/
theorem cycLoopAux_count_zero (cosD sinD : ℚ → ℚ)
    (oracle : Nat → String → Coord × Coord → Except ORSError ORSResponse)
    (origStart : Coord) (maxRetries : Nat) :
    ∀ fuel attempt ws prof,
      (cycLoopAux cosD sinD oracle origStart maxRetries attempt fuel ws prof).2 = 0 →
      (cycLoopAux cosD sinD oracle origStart maxRetries attempt fuel ws prof).1
        = Except.error (CycError.failed maxRetries) := by
  intro fuel attempt ws prof h
  cases fuel with
  | zero => simp [cycLoopAux]
  | succ n =>
    have := cycLoopAux_count_pos cosD sinD oracle origStart maxRetries n attempt ws prof
    omega

/-- Helper: the first feature of a single-feature mock response. -/
theorem mkResp_head (d t : ℚ) (g : List Coord) :
    (mkResp d t g).features.head? = some (mkFeat d t g) := rfl

/-- Helper: the measured distance of a single-segment mock feature is its
nominal kilometer value. -/
theorem mkFeat_km (d t : ℚ) (g : List Coord) : featureKm (mkFeat d t g) = d := by
  simp [featureKm, sumDist, mkFeat]

/-- C5 (amended): with a provider that always measures 2 km — below the 3 km
acceptable minimum — the walking search consumes exactly `maxRetries`
attempts and then throws the generic exhaustion error `Failed to generate
acceptable route after N attempts`; contrary to the claim, that failure
carries only the attempt count and does not report the best observed
distance to the caller. -/
theorem c5_exhaustion_amended (cosF sinF : ℚ → ℚ) (center : Coord) (numPoints : Nat)
    (ws0 : List Coord) (baseRadiusKm : ℚ) (N : Nat) :
    validateAndRetryRouteRun cosF sinF oracle2km center numPoints ws0 baseRadiusKm N
      = (Except.error (WalkError.exhausted N), N) ∧
    walkErrorMessage (WalkError.exhausted N)
      = "Failed to generate acceptable route after " ++ toString N ++ " attempts" := by
  refine ⟨?_, rfl⟩
  have hd : ¬(5 ≤ featureKm (mkFeat 2 1440 geomW) ∧ featureKm (mkFeat 2 1440 geomW) ≤ 15) := by
    rw [mkFeat_km]; norm_num
  exact walkLoopAux_const_reject cosF sinF center numPoints N (mkResp 2 1440 geomW)
    (mkFeat 2 1440 geomW) rfl hd N 0 ws0 baseRadiusKm

/-- C5 (counterexample): the concrete exhaustion scenario — always 2 km,
`maxAttempts = 8`.  The search does stop after exactly 8 attempts, but the
failure is the bare error `Failed to generate acceptable route after 8
attempts`: the `WalkError.exhausted` outcome carries no distance field, so
no `bestObservedDistanceKm = 2` is reported to the caller. -/
theorem c5_counterexample_exhaustion_report :
    validateAndRetryRouteRun czero czero oracle2km centerC 10 wsC (113 / 213) 8
      = (Except.error (WalkError.exhausted 8), 8) ∧
    walkErrorMessage (WalkError.exhausted 8)
      = "Failed to generate acceptable route after 8 attempts" := by
  refine ⟨?_, rfl⟩
  have hd : ¬(5 ≤ featureKm (mkFeat 2 1440 geomW) ∧ featureKm (mkFeat 2 1440 geomW) ≤ 15) := by
    rw [mkFeat_km]; norm_num
  exact walkLoopAux_const_reject czero czero centerC 10 8 (mkResp 2 1440 geomW)
    (mkFeat 2 1440 geomW) rfl hd 8 0 wsC (113 / 213)

/-- C4 (counterexample): a walking candidate measuring 18 km — inside the
acceptable (3, 20) band but outside the ideal (5, 15) band — is not accepted
immediately: with a provider that always measures 18 km and `maxRetries = 8`
the loop retries and ends with the exhaustion error after all 8 attempts
instead of returning the 18 km candidate on attempt 1. -/
theorem c4_counterexample_acceptable_not_accepted :
    validateAndRetryRouteRun czero czero oracle18 centerC 10 wsC (113 / 213) 8
      = (Except.error (WalkError.exhausted 8), 8) ∧
    featureKm (mkFeat 18 5400 geomW) = 18 ∧
    (3 : ℚ) < 18 ∧ (18 : ℚ) < 20 ∧ ¬((5 : ℚ) ≤ 18 ∧ (18 : ℚ) ≤ 15) := by
  refine ⟨?_, mkFeat_km 18 5400 geomW, by norm_num, by norm_num, by norm_num⟩
  have hd : ¬(5 ≤ featureKm (mkFeat 18 5400 geomW) ∧ featureKm (mkFeat 18 5400 geomW) ≤ 15) := by
    rw [mkFeat_km]; norm_num
  exact walkLoopAux_const_reject czero czero centerC 10 8 (mkResp 18 5400 geomW)
    (mkFeat 18 5400 geomW) rfl hd 8 0 wsC (113 / 213)

/-- C4 (amended): the immediate-acceptance policies of the two loops differ.
The walking loop (`validateAndRetryRoute`) accepts a candidate on its first
attempt exactly when the measured distance lies in the ideal band
`[5, 15]` — an acceptable-but-not-ideal distance such as 18 km triggers a
radius-adjustment retry instead of immediate acceptance.  The cycling
per-day loop (`generateCityRouteWithRetry`) accepts on its first attempt
exactly when the measured distance lies in its acceptable band `[5, 60]`. -/
theorem c4_acceptance_policy_amended (cosF sinF : ℚ → ℚ)
    (oracle : Nat → List Coord → Except ORSError ORSResponse)
    (center : Coord) (numPoints : Nat) (ws0 : List Coord) (baseRadiusKm : ℚ)
    (N : Nat) (resp : ORSResponse) (f : Feature)
    (hN : 1 ≤ N) (ho : oracle 0 ws0 = Except.ok resp)
    (hf : resp.features.head? = some f) :
    (validateAndRetryRouteRun cosF sinF oracle center numPoints ws0 baseRadiusKm N
        = (Except.ok resp, 1) ↔ 5 ≤ featureKm f ∧ featureKm f ≤ 15) ∧
    ∀ (cosD sinD : ℚ → ℚ)
      (oracleC : Nat → String → Coord × Coord → Except ORSError ORSResponse)
      (wsPair : Coord × Coord) (respC : ORSResponse) (fc : Feature),
      oracleC 0 "cycling-road" wsPair = Except.ok respC →
      respC.features.head? = some fc →
      (cycRun cosD sinD oracleC wsPair N = (Except.ok (respC, featureKm fc), 1) ↔
        5 ≤ featureKm fc ∧ featureKm fc ≤ 60) := by
  obtain ⟨M, rfl⟩ : ∃ M, N = M + 1 := ⟨N - 1, by omega⟩
  constructor
  · constructor
    · intro heq
      by_cases hd : 5 ≤ featureKm f ∧ featureKm f ≤ 15
      · exact hd
      · exfalso
        simp only [validateAndRetryRouteRun] at heq
        by_cases hlong : 15 < featureKm f
        · rw [walkLoopAux_step_tooLong cosF sinF oracle center numPoints (M + 1) 0 M
            ws0 baseRadiusKm resp f ho hf hlong, Prod.mk.injEq] at heq
          obtain ⟨hfst, hsnd⟩ := heq
          have hz : (walkLoopAux cosF sinF oracle center numPoints (M + 1) (0 + 1) M
              (circleWaypoints cosF sinF center (baseRadiusKm * (8 / 10) / 111) numPoints)
              (baseRadiusKm * (8 / 10))).2 = 0 := by omega
          have herr := walkLoopAux_count_zero cosF sinF oracle center numPoints (M + 1)
            M (0 + 1) _ _ hz
          rw [herr] at hfst
          exact Except.noConfusion hfst
        · have hshort : featureKm f < 5 := by
            rcases not_and_or.mp hd with h5 | h15
            · exact not_le.mp h5
            · exact absurd (not_lt.mp hlong) h15
          rw [walkLoopAux_step_tooShort cosF sinF oracle center numPoints (M + 1) 0 M
            ws0 baseRadiusKm resp f ho hf hshort, Prod.mk.injEq] at heq
          obtain ⟨hfst, hsnd⟩ := heq
          have hz : (walkLoopAux cosF sinF oracle center numPoints (M + 1) (0 + 1) M
              (circleWaypoints cosF sinF center (baseRadiusKm * (13 / 10) / 111) numPoints)
              (baseRadiusKm * (13 / 10))).2 = 0 := by omega
          have herr := walkLoopAux_count_zero cosF sinF oracle center numPoints (M + 1)
            M (0 + 1) _ _ hz
          rw [herr] at hfst
          exact Except.noConfusion hfst
    · intro hd
      exact walkLoopAux_step_accept cosF sinF oracle center numPoints (M + 1) 0 M
        ws0 baseRadiusKm resp f ho hf hd
  · intro cosD sinD oracleC wsPair respC fc hoc hfc
    constructor
    · intro heq
      by_cases hd : 5 ≤ featureKm fc ∧ featureKm fc ≤ 60
      · exact hd
      · exfalso
        simp only [cycRun] at heq
        by_cases hshort : featureKm fc < 5
        · rw [cycLoopAux_step_short cosD sinD oracleC wsPair.1 (M + 1) 0 M
            wsPair "cycling-road" respC fc hoc hfc hshort (by norm_num),
            Prod.mk.injEq] at heq
          obtain ⟨hfst, hsnd⟩ := heq
          have hz : (cycLoopAux cosD sinD oracleC wsPair.1 (M + 1) (0 + 1) M
              (wsPair.1,
               { lng := wsPair.1.lng + (wsPair.2.lng - wsPair.1.lng) * 2
                 lat := wsPair.1.lat + (wsPair.2.lat - wsPair.1.lat) * 2 })
              "cycling-road").2 = 0 := by omega
          have herr := cycLoopAux_count_zero cosD sinD oracleC wsPair.1 (M + 1)
            M (0 + 1) _ _ hz
          rw [herr] at hfst
          exact Except.noConfusion hfst
        · have hlong : 60 < featureKm fc := by
            rcases not_and_or.mp hd with h5 | h60
            · exact absurd (not_lt.mp hshort) h5
            · exact not_le.mp h60
          rw [cycLoopAux_step_long cosD sinD oracleC wsPair.1 (M + 1) 0 M
            wsPair "cycling-road" respC fc hoc hfc hlong (by norm_num),
            Prod.mk.injEq] at heq
          obtain ⟨hfst, hsnd⟩ := heq
          have hz : (cycLoopAux cosD sinD oracleC wsPair.1 (M + 1) (0 + 1) M
              (wsPair.1,
               { lng := wsPair.1.lng + (wsPair.2.lng - wsPair.1.lng) * (6 / 10)
                 lat := wsPair.1.lat + (wsPair.2.lat - wsPair.1.lat) * (6 / 10) })
              "cycling-road").2 = 0 := by omega
          have herr := cycLoopAux_count_zero cosD sinD oracleC wsPair.1 (M + 1)
            M (0 + 1) _ _ hz
          rw [herr] at hfst
          exact Except.noConfusion hfst
    · intro hd
      exact cycLoopAux_step_accept cosD sinD oracleC wsPair.1 (M + 1) 0 M
        wsPair "cycling-road" respC fc hoc hfc hd

/-- C4 (witness): the amended acceptance policy at a concrete input — an
always-10 km provider, budget 1: the walking loop accepts the 10 km
response at once since it is ideal, and the equivalences hold. -/
theorem c4_acceptance_policy_amended_witness :
    (validateAndRetryRouteRun czero czero oracle10 centerC 10 wsC (113 / 213) 1
        = (Except.ok (mkResp 10 7200 geomW), 1) ↔
      5 ≤ featureKm (mkFeat 10 7200 geomW) ∧ featureKm (mkFeat 10 7200 geomW) ≤ 15) ∧
    ∀ (cosD sinD : ℚ → ℚ)
      (oracleC : Nat → String → Coord × Coord → Except ORSError ORSResponse)
      (wsPair : Coord × Coord) (respC : ORSResponse) (fc : Feature),
      oracleC 0 "cycling-road" wsPair = Except.ok respC →
      respC.features.head? = some fc →
      (cycRun cosD sinD oracleC wsPair 1 = (Except.ok (respC, featureKm fc), 1) ↔
        5 ≤ featureKm fc ∧ featureKm fc ≤ 60) :=
  c4_acceptance_policy_amended czero czero oracle10 centerC 10 wsC (113 / 213) 1
    (mkResp 10 7200 geomW) (mkFeat 10 7200 geomW) (by norm_num) rfl rfl

/-- C3 (counterexample): an authentication error on attempt 1 does not make
the searches terminate immediately.  With a provider that fails every call
with HTTP 401 and `maxRetries = 8`, the walking retry loop performs all 8
provider calls (retrying the same waypoints) and the cycling retry loop
performs all 8 provider calls (each time generating a new candidate
waypoint set) before the auth error finally propagates — not the single
attempt the claim requires. -/
theorem c3_counterexample_auth_short_circuit :
    validateAndRetryRouteRun czero czero oracleAuthW centerC 10 wsC (113 / 213) 8
      = (Except.error (WalkError.caught (CaughtErr.api (ORSError.authError 401))), 8) ∧
    cycRun czero czero oracleAuthC (centerC, { lng := 345 / 10, lat := 50 }) 8
      = (Except.error (CycError.caught (CaughtErr.api (ORSError.authError 401))), 8) := by
  constructor
  · exact walkLoopAux_const_error czero czero centerC 10 8 (ORSError.authError 401)
      8 0 wsC (113 / 213) (by norm_num) (by norm_num)
  · exact cycLoopAux_const_auth czero czero _ 8 401 8 0
      (centerC, { lng := 345 / 10, lat := 50 }) "cycling-road" (by norm_num) (by norm_num)

/-- C3 (amended): `callOpenRouteService` itself throws an authentication
error (HTTP 401/403) immediately — a single network call, none of its
internal transient retries — but the outer retry loops treat that error
like any other failure: with a provider that always returns the auth error,
the walking loop retries the same waypoints and the cycling loop generates
new candidate waypoint sets until all `maxRetries` attempts are consumed,
and only then does the auth error propagate. -/
theorem c3_auth_handling_amended (net : Nat → NetOutcome) (coords : List Coord)
    (profile : String) (mr : Nat) (cosF sinF cosD sinD : ℚ → ℚ) (center : Coord)
    (numPoints : Nat) (ws0 : List Coord) (baseRadiusKm : ℚ) (wsPair : Coord × Coord)
    (N : Nat)
    (hfar : firstPairTooFar coords = false) (hcc : coordCheck coords = none)
    (hnet : net 0 = NetOutcome.httpError 401) (hN : 1 ≤ N) :
    callORS true net coords profile mr = (Except.error (ORSError.authError 401), 1) ∧
    validateAndRetryRouteRun cosF sinF (fun _ _ => Except.error (ORSError.authError 401))
        center numPoints ws0 baseRadiusKm N
      = (Except.error (WalkError.caught (CaughtErr.api (ORSError.authError 401))), N) ∧
    cycRun cosD sinD (fun _ _ _ => Except.error (ORSError.authError 401)) wsPair N
      = (Except.error (CycError.caught (CaughtErr.api (ORSError.authError 401))), N) := by
  refine ⟨?_,
    walkLoopAux_const_error cosF sinF center numPoints N (ORSError.authError 401)
      N 0 ws0 baseRadiusKm hN (by omega),
    cycLoopAux_const_auth cosD sinD wsPair.1 N 401 N 0 wsPair "cycling-road" hN (by omega)⟩
  simp only [callORS, hfar, hcc, orsNetLoop, hnet]
  norm_num

/-- C3 (witness): the amended statement at concrete inputs — a network that
answers HTTP 401, the concrete seed waypoints, budget 8. -/
theorem c3_auth_handling_amended_witness :
    callORS true net401 wsC "foot-walking" 2 = (Except.error (ORSError.authError 401), 1) ∧
    validateAndRetryRouteRun czero czero (fun _ _ => Except.error (ORSError.authError 401))
        centerC 10 wsC (113 / 213) 8
      = (Except.error (WalkError.caught (CaughtErr.api (ORSError.authError 401))), 8) ∧
    cycRun czero czero (fun _ _ _ => Except.error (ORSError.authError 401))
        (centerC, { lng := 345 / 10, lat := 50 }) 8
      = (Except.error (CycError.caught (CaughtErr.api (ORSError.authError 401))), 8) :=
  c3_auth_handling_amended net401 wsC "foot-walking" 2 czero czero czero czero centerC
    10 wsC (113 / 213) (centerC, { lng := 345 / 10, lat := 50 }) 8
    (by norm_num [firstPairTooFar, wsC, pairTooFar, sqScaledDist])
    (by norm_num [coordCheck, coordCheckFrom, wsC])
    rfl (by norm_num)

/-- C6: the shrinking-convergence scenario.  With a provider measuring
18 km, 16 km and 13 km on attempts 1–3, the walking search rejects the first
two attempts as too long (shrinking the radius each time), accepts at
attempt 3 — exactly 3 provider calls — and the returned route has
`distance = 13`. -/
theorem c6_shrinking_convergence :
    (generateWalkingRouteE czero czero (355 / 113) oracle183 centerC).2 = 3 ∧
    ((generateWalkingRouteE czero czero (355 / 113) oracle183 centerC).1).map Route.distance
      = Except.ok 13 := by
  have h18 : (15 : ℚ) < featureKm (mkFeat 18 5400 geomW) := by rw [mkFeat_km]; norm_num
  have h16 : (15 : ℚ) < featureKm (mkFeat 16 4800 geomW) := by rw [mkFeat_km]; norm_num
  have h13 : 5 ≤ featureKm (mkFeat 13 3900 geomW) ∧ featureKm (mkFeat 13 3900 geomW) ≤ 15 := by
    rw [mkFeat_km]; norm_num
  have h3 : ∀ ws r, walkLoopAux czero czero oracle183 centerC (walkNumPoints 10) 8 2 6 ws r
      = (Except.ok (mkResp 13 3900 geomW), 1) := fun ws r =>
    walkLoopAux_step_accept czero czero oracle183 centerC (walkNumPoints 10) 8 2 5 ws r
      (mkResp 13 3900 geomW) (mkFeat 13 3900 geomW) rfl rfl h13
  have h2 : ∀ ws r, walkLoopAux czero czero oracle183 centerC (walkNumPoints 10) 8 1 7 ws r
      = (Except.ok (mkResp 13 3900 geomW), 2) := by
    intro ws r
    have hs := walkLoopAux_step_tooLong czero czero oracle183 centerC (walkNumPoints 10) 8 1 6
      ws r (mkResp 16 4800 geomW) (mkFeat 16 4800 geomW) rfl rfl h16
    rw [h3 _ _] at hs
    exact hs
  have h1 : ∀ ws r, walkLoopAux czero czero oracle183 centerC (walkNumPoints 10) 8 0 8 ws r
      = (Except.ok (mkResp 13 3900 geomW), 3) := by
    intro ws r
    have hs := walkLoopAux_step_tooLong czero czero oracle183 centerC (walkNumPoints 10) 8 0 7
      ws r (mkResp 18 5400 geomW) (mkFeat 18 5400 geomW) rfl rfl h18
    rw [h2 _ _] at hs
    exact hs
  have hrun : ∀ ws r, validateAndRetryRouteRun czero czero oracle183 centerC
      (walkNumPoints 10) ws r 8 = (Except.ok (mkResp 13 3900 geomW), 3) :=
    fun ws r => h1 ws r
  constructor
  · simp only [generateWalkingRouteE, hrun, mkResp_head]
    norm_num [mkFeat, sumDist, geomW]
  · simp only [generateWalkingRouteE, hrun, mkResp_head]
    norm_num [mkFeat, sumDist, sumDur, geomW, Except.map]

/-- Helper: whenever the walking retry loop returns a response, that
response's first feature measures within the ideal 5–15 km band — the only
return sites are the ideal-acceptance branch and its arithmetically
unreachable safety twin. -/
theorem walkLoopAux_ok_bounds (cosF sinF : ℚ → ℚ)
    (oracle : Nat → List Coord → Except ORSError ORSResponse)
    (center : Coord) (numPoints maxRetries : Nat) :
    ∀ fuel attempt ws radius resp,
      (walkLoopAux cosF sinF oracle center numPoints maxRetries attempt fuel ws radius).1
        = Except.ok resp →
      ∃ f, resp.features.head? = some f ∧ 5 ≤ featureKm f ∧ featureKm f ≤ 15 := by
  intro fuel
  induction fuel with
  | zero => intro attempt ws radius resp h; simp [walkLoopAux] at h
  | succ m ih =>
    intro attempt ws radius resp h
    cases ho : oracle attempt ws with
    | error e =>
      by_cases hl : attempt = maxRetries - 1
      · rw [walkLoopAux_step_error_last cosF sinF oracle center numPoints maxRetries
          attempt m ws radius e ho hl] at h
        simp at h
      · rw [walkLoopAux_step_error_cont cosF sinF oracle center numPoints maxRetries
          attempt m ws radius e ho hl] at h
        exact ih (attempt + 1) ws radius resp h
    | ok r0 =>
      cases hf : r0.features.head? with
      | none =>
        simp only [walkLoopAux, ho, hf] at h
        by_cases hl : attempt = maxRetries - 1
        · rw [if_pos hl] at h
          simp at h
        · rw [if_neg hl] at h
          exact ih (attempt + 1) ws radius resp h
      | some f0 =>
        simp only [walkLoopAux, ho, hf] at h
        by_cases hacc : 5 ≤ featureKm f0 ∧ featureKm f0 ≤ 15
        · rw [if_pos hacc] at h
          obtain rfl : r0 = resp := by simpa using h
          exact ⟨f0, hf, hacc⟩
        · rw [if_neg hacc] at h
          by_cases hlong : 15 < featureKm f0
          · rw [if_pos hlong] at h
            exact ih (attempt + 1) _ _ resp h
          · rw [if_neg hlong] at h
            by_cases hshort : featureKm f0 < 5
            · rw [if_pos hshort] at h
              exact ih (attempt + 1) _ _ resp h
            · rw [if_neg hshort] at h
              obtain rfl : r0 = resp := by simpa using h
              exact ⟨f0, hf, not_lt.mp hshort, not_lt.mp hlong⟩

/-- C10: every walking route successfully returned by
`generateWalkingRoute` has its distance inside the ideal band,
`5 ≤ distance ≤ 15`: the retry loop only ever returns responses measuring
in `[5, 15]`, and the final distance is recomputed from the same segments,
so the post-loop failure branches (final distance below 3 km or above
20 km) and the settle-for branch are unreachable on the success path. -/
theorem c10_walking_success_distance_band (cosF sinF : ℚ → ℚ) (piApprox : ℚ)
    (oracle : Nat → List Coord → Except ORSError ORSResponse) (center : Coord)
    (r : Route) (n : Nat)
    (h : generateWalkingRouteE cosF sinF piApprox oracle center = (Except.ok r, n)) :
    5 ≤ r.distance ∧ r.distance ≤ 15 := by
  simp only [generateWalkingRouteE] at h
  split at h
  · simp at h
  · next resp m heq =>
    have hb := walkLoopAux_ok_bounds cosF sinF oracle center (walkNumPoints 10) 8
      8 0 _ _ resp (by rw [show validateAndRetryRouteRun cosF sinF oracle center
        (walkNumPoints 10)
        (circleWaypoints cosF sinF center
          (max (10 / (2 * piApprox * 3)) (1 / 2) / 111) (walkNumPoints 10))
        (max (10 / (2 * piApprox * 3)) (1 / 2)) 8
        = walkLoopAux cosF sinF oracle center (walkNumPoints 10) 8 0 8
          (circleWaypoints cosF sinF center
            (max (10 / (2 * piApprox * 3)) (1 / 2) / 111) (walkNumPoints 10))
          (max (10 / (2 * piApprox * 3)) (1 / 2)) from rfl] at heq; rw [heq])
    obtain ⟨f, hf, h5, h15⟩ := hb
    split at h
    · simp at h
    · rename_i f2 hf2
      rw [hf] at hf2
      obtain rfl : f = f2 := by simpa using hf2
      split at h
      · simp at h
      · split at h
        · simp at h
        · split at h
          · simp only [Prod.mk.injEq, Except.ok.injEq] at h
            obtain ⟨hv, hn⟩ := h
            subst hv
            exact ⟨by simpa [featureKm] using h5, by simpa [featureKm] using h15⟩
          · simp at h

/-- C10 (witness): the invariant at a concrete successful run — the
always-10 km provider yields a route whose distance lies in `[5, 15]`. -/
theorem c10_walking_success_distance_band_witness :
    5 ≤ routeC10.distance ∧ routeC10.distance ≤ 15 := by
  refine c10_walking_success_distance_band czero czero (355 / 113) oracle10 centerC
    routeC10 1 ?_
  have h10 : 5 ≤ featureKm (mkFeat 10 7200 geomW) ∧ featureKm (mkFeat 10 7200 geomW) ≤ 15 := by
    rw [mkFeat_km]; norm_num
  have hrun : ∀ ws rad, validateAndRetryRouteRun czero czero oracle10 centerC
      (walkNumPoints 10) ws rad 8 = (Except.ok (mkResp 10 7200 geomW), 1) :=
    fun ws rad => walkLoopAux_step_accept czero czero oracle10 centerC (walkNumPoints 10)
      8 0 7 ws rad (mkResp 10 7200 geomW) (mkFeat 10 7200 geomW) rfl rfl h10
  simp only [generateWalkingRouteE, hrun, mkResp_head]
  norm_num [mkFeat, sumDist, sumDur, sumElev, geomW, routeC10]

/-- Helper: structure of the circular waypoint list for any positive point
count — length, closure, and the position of each point. -/
theorem circleWaypoints_spec (cosF sinF : ℚ → ℚ) (center : Coord) (radiusDeg : ℚ)
    (n : Nat) (hn : 1 ≤ n) :
    (circleWaypoints cosF sinF center radiusDeg n).length = n + 1 ∧
    (circleWaypoints cosF sinF center radiusDeg n).head?
      = (circleWaypoints cosF sinF center radiusDeg n).getLast? ∧
    ∀ i, i < n → (circleWaypoints cosF sinF center radiusDeg n).get? i
      = some { lng := center.lng + radiusDeg * sinF ((i : ℚ) / (n : ℚ))
               lat := center.lat + radiusDeg * cosF ((i : ℚ) / (n : ℚ)) } := by
  set f : Nat → Coord := fun i =>
    { lng := center.lng + radiusDeg * sinF ((i : ℚ) / (n : ℚ))
      lat := center.lat + radiusDeg * cosF ((i : ℚ) / (n : ℚ)) } with hfdef
  have hget : ∀ i, i < n → ((List.range n).map f).get? i = some (f i) := by
    intro i hi
    rw [List.get?_map, List.get?_range hi]
    rfl
  have hhead : ((List.range n).map f).head? = some (f 0) := by
    rw [← List.get?_zero]
    exact hget 0 hn
  have hclose : circleWaypoints cosF sinF center radiusDeg n
      = (List.range n).map f ++ [f 0] := by
    simp only [circleWaypoints, closeLoop, ← hfdef, hhead]
  refine ⟨?_, ?_, ?_⟩
  · rw [hclose]
    simp
  · rw [hclose]
    cases hp : (List.range n).map f with
    | nil => rw [hp] at hhead; simp at hhead
    | cons a t =>
      rw [hp] at hhead
      simp only [List.head?_cons, Option.some.injEq] at hhead
      rw [List.getLast?_concat]
      simp [hhead]
  · intro i hi
    rw [hclose, List.get?_append (by simpa using hi), hget i hi]

/-- C7: for every target distance, the walking waypoint constructor places
`numPoints` coordinates at the turn fractions `i / numPoints` (source:
angles `2·π·i/numPoints`) on the circle of the current radius around the
center, with `numPoints = min(max(6, floor(target · 1.2)), 10)` clamped to
`[6, 10]`, and appends the first point again: the list has `numPoints + 1`
entries whose first and last entries are identical. -/
theorem c7_circular_waypoints (targetDistance : ℚ) (cosF sinF : ℚ → ℚ)
    (center : Coord) (radiusDeg : ℚ) :
    6 ≤ walkNumPoints targetDistance ∧ walkNumPoints targetDistance ≤ 10 ∧
    (circleWaypoints cosF sinF center radiusDeg (walkNumPoints targetDistance)).length
      = walkNumPoints targetDistance + 1 ∧
    (circleWaypoints cosF sinF center radiusDeg (walkNumPoints targetDistance)).head?
      = (circleWaypoints cosF sinF center radiusDeg (walkNumPoints targetDistance)).getLast? ∧
    ∀ i, i < walkNumPoints targetDistance →
      (circleWaypoints cosF sinF center radiusDeg (walkNumPoints targetDistance)).get? i
        = some { lng := center.lng
                   + radiusDeg * sinF ((i : ℚ) / (walkNumPoints targetDistance : ℚ))
                 lat := center.lat
                   + radiusDeg * cosF ((i : ℚ) / (walkNumPoints targetDistance : ℚ)) } := by
  have h6 : 6 ≤ walkNumPoints targetDistance :=
    le_min (le_max_left 6 _) (by norm_num)
  have h10 : walkNumPoints targetDistance ≤ 10 := min_le_right _ _
  obtain ⟨hlen, hcl, hget⟩ := circleWaypoints_spec cosF sinF center radiusDeg
    (walkNumPoints targetDistance) (le_trans (by norm_num) h6)
  exact ⟨h6, h10, hlen, hcl, hget⟩

/-- C7 (witness): the waypoint-constructor facts at the concrete target of
10 km (10 points), sampling the point at index 3. -/
theorem c7_circular_waypoints_witness :
    6 ≤ walkNumPoints 10 ∧ walkNumPoints 10 ≤ 10 ∧
    (circleWaypoints (fun q => q) (fun q => q) { lng := 0, lat := 0 } 1
        (walkNumPoints 10)).length = walkNumPoints 10 + 1 ∧
    (circleWaypoints (fun q => q) (fun q => q) { lng := 0, lat := 0 } 1
        (walkNumPoints 10)).get? 3
      = some { lng := 0 + 1 * ((3 : ℚ) / (walkNumPoints 10 : ℚ))
               lat := 0 + 1 * ((3 : ℚ) / (walkNumPoints 10 : ℚ)) } := by
  obtain ⟨h6, h10, hlen, hcl, hget⟩ :=
    c7_circular_waypoints 10 (fun q => q) (fun q => q) { lng := 0, lat := 0 } 1
  exact ⟨h6, h10, hlen, hget 3 (lt_of_lt_of_le (by norm_num) h6)⟩

/-- C8 (amended): `callOpenRouteService` rejects locally — before any
network request — every waypoint list whose FIRST two points are more than
80 km apart straight-line (Euclidean distance in degrees times 111); the
check inspects only `coordinates[0]` and `coordinates[1]`, so later
consecutive pairs are not examined. -/
theorem c8_first_pair_reject_amended (net : Nat → NetOutcome) (coords : List Coord)
    (profile : String) (mr : Nat) (hfar : firstPairTooFar coords = true) :
    callORS true net coords profile mr = (Except.error ORSError.tooFarApart, 0) := by
  simp only [callORS, hfar]
  norm_num

/-- C8 (witness): a concrete pair 111 km apart is rejected locally with
zero network calls. -/
theorem c8_first_pair_reject_amended_witness :
    firstPairTooFar wFar = true ∧
    callORS true netOk wFar "foot-walking" 2 = (Except.error ORSError.tooFarApart, 0) :=
  ⟨by norm_num [firstPairTooFar, wFar, pairTooFar, sqScaledDist],
   c8_first_pair_reject_amended netOk wFar "foot-walking" 2
     (by norm_num [firstPairTooFar, wFar, pairTooFar, sqScaledDist])⟩

/-- C8 (counterexample): a waypoint list whose second and third points are
about 211 km apart — so it has a consecutive pair beyond 80 km — passes the
local check (which looks only at the first pair, 11.1 km apart here) and a
network request is made: `callOpenRouteService` returns the provider's
response after one network call instead of rejecting locally. -/
theorem c8_counterexample_consecutive_pairs :
    hasFarConsecutivePair w3 = true ∧
    callORS true netOk w3 "foot-walking" 2 = (Except.ok (mkResp 10 7200 geomW), 1) := by
  constructor
  · norm_num [hasFarConsecutivePair, w3, pairTooFar, sqScaledDist]
  · simp only [callORS]
    norm_num [firstPairTooFar, w3, pairTooFar, sqScaledDist, coordCheck, coordCheckFrom,
      orsNetLoop, netOk]

/-- Helper: the day-1 mock is accepted on its first attempt with 25 km,
whatever the seed waypoints. -/
theorem cycRun_day1 (ws : Coord × Coord) :
    cycRun czero czero oracleDay1 ws 8 = (Except.ok (mkResp 25 3600 geomD1, 25), 1) := by
  have h25 : 5 ≤ featureKm (mkFeat 25 3600 geomD1) ∧ featureKm (mkFeat 25 3600 geomD1) ≤ 60 := by
    rw [mkFeat_km]; norm_num
  have hs := cycLoopAux_step_accept czero czero oracleDay1 ws.1 8 0 7 ws "cycling-road"
    (mkResp 25 3600 geomD1) (mkFeat 25 3600 geomD1) rfl rfl h25
  rw [mkFeat_km] at hs
  exact hs

/-- Helper: the day-2 mock is accepted on its first attempt with 25 km,
whatever the seed waypoints. -/
theorem cycRun_day2 (ws : Coord × Coord) :
    cycRun czero czero oracleDay2 ws 8 = (Except.ok (mkResp 25 3600 geomD2, 25), 1) := by
  have h25 : 5 ≤ featureKm (mkFeat 25 3600 geomD2) ∧ featureKm (mkFeat 25 3600 geomD2) ≤ 60 := by
    rw [mkFeat_km]; norm_num
  have hs := cycLoopAux_step_accept czero czero oracleDay2 ws.1 8 0 7 ws "cycling-road"
    (mkResp 25 3600 geomD2) (mkFeat 25 3600 geomD2) rfl rfl h25
  rw [mkFeat_km] at hs
  exact hs

/-- Helper: the full cycling pipeline on the two 25 km day mocks assembles
`routeCyc`, for any seed coordinates. -/
theorem generateCyclingRouteE_mocks (s p1 p2 : Coord) :
    generateCyclingRouteE czero czero oracleDay1 oracleDay2 s p1 p2 = Except.ok routeCyc := by
  have hh1 : geomD1.head? = some { lng := 34, lat := 50 } := rfl
  have hl1 : geomD1.getLast? = some { lng := 34, lat := 251 / 5 } := rfl
  have hh2 : geomD2.head? = some { lng := 343 / 10, lat := 101 / 2 } := rfl
  have hl2 : geomD2.getLast? = some { lng := 34, lat := 507 / 10 } := rfl
  simp only [generateCyclingRouteE, cycRun_day1, cycRun_day2, mkResp_head,
    assembleCyclingRoute, mkFeat, hh1, hl1, hh2, hl2]
  norm_num [sumDur, sumElev, routeCyc]

/-- C2 (counterexample): a successful 2-day cycling result in which day 2's
reported start point differs from day 1's reported end point.  Day 1's mock
path ends at `(34, 50.2)` while day 2's mock path starts at `(34.3, 50.5)`;
the pipeline accepts both days and reports
`dayDetails[1].startPoint = (34.3, 50.5) ≠ (34, 50.2) = dayDetails[0].endPoint`,
because the code takes both points from the respective provider geometries
and nothing forces them to coincide. -/
theorem c2_counterexample_day_chaining :
    (generateCyclingRouteE czero czero oracleDay1 oracleDay2 centerC
        { lng := 345 / 10, lat := 50 } { lng := 35, lat := 505 / 10 }).map
      (fun r => (r.dayDetails.map DayPlan.startPoint, r.dayDetails.map DayPlan.endPoint))
      = Except.ok
          ([{ lng := 34, lat := 50 }, { lng := 343 / 10, lat := 101 / 2 }],
           [{ lng := 34, lat := 251 / 5 }, { lng := 34, lat := 507 / 10 }]) ∧
    ({ lng := 343 / 10, lat := 101 / 2 } : Coord) ≠ { lng := 34, lat := 251 / 5 } := by
  constructor
  · rw [generateCyclingRouteE_mocks]
    simp [routeCyc, Except.map]
  · intro hc
    rw [Coord.mk.injEq] at hc
    exact absurd hc.1 (by norm_num)

/-- C2 (amended): in every successful cycling result the two reported day
plans take their boundary points from the provider geometries — day 1's
`endPoint` is the last coordinate of day 1's returned geometry and day 2's
`startPoint` is the first coordinate of day 2's returned geometry — and day
2's search is seeded with the pair `(day1End, day2End)` built from the
originally proposed day-1 end point, not from day 1's actual end; the two
reported points therefore coincide only when the provider's day-2 geometry
happens to begin exactly where its day-1 geometry ended. -/
theorem c2_day_chaining_amended (cosD sinD : ℚ → ℚ)
    (oracle1 oracle2 : Nat → String → Coord × Coord → Except ORSError ORSResponse)
    (start day1End day2End : Coord) (r : Route)
    (h : generateCyclingRouteE cosD sinD oracle1 oracle2 start day1End day2End
      = Except.ok r) :
    ∃ resp1 d1 resp2 d2 f1 f2 plan1 plan2,
      (cycRun cosD sinD oracle1 (start, day1End) 8).1 = Except.ok (resp1, d1) ∧
      (cycRun cosD sinD oracle2 (day1End, day2End) 8).1 = Except.ok (resp2, d2) ∧
      resp1.features.head? = some f1 ∧ resp2.features.head? = some f2 ∧
      r.dayDetails = [plan1, plan2] ∧
      f1.geometry.getLast? = some plan1.endPoint ∧
      f2.geometry.head? = some plan2.startPoint := by
  simp only [generateCyclingRouteE] at h
  split at h
  · simp at h
  · rename_i resp1 d1 heq1
    split at h
    · simp at h
    · rename_i resp2 d2 heq2
      split at h
      · rename_i f1 f2 hf1 hf2
        simp only [assembleCyclingRoute] at h
        split at h
        · rename_i s1 e1 s2 e2 hg1h hg1l hg2h hg2l
          simp only [Except.ok.injEq] at h
          subst h
          exact ⟨resp1, d1, resp2, d2, f1, f2, _, _, heq1, heq2, hf1, hf2, rfl, hg1l, hg2h⟩
        · simp at h
      · simp at h

/-- C2 (witness): the amended statement at the concrete day mocks. -/
theorem c2_day_chaining_amended_witness :
    ∃ resp1 d1 resp2 d2 f1 f2 plan1 plan2,
      (cycRun czero czero oracleDay1 (centerC, { lng := 345 / 10, lat := 50 }) 8).1
        = Except.ok (resp1, d1) ∧
      (cycRun czero czero oracleDay2
          ({ lng := 345 / 10, lat := 50 }, { lng := 35, lat := 505 / 10 }) 8).1
        = Except.ok (resp2, d2) ∧
      resp1.features.head? = some f1 ∧ resp2.features.head? = some f2 ∧
      routeCyc.dayDetails = [plan1, plan2] ∧
      f1.geometry.getLast? = some plan1.endPoint ∧
      f2.geometry.head? = some plan2.startPoint :=
  c2_day_chaining_amended czero czero oracleDay1 oracleDay2 centerC
    { lng := 345 / 10, lat := 50 } { lng := 35, lat := 505 / 10 } routeCyc
    (generateCyclingRouteE_mocks centerC { lng := 345 / 10, lat := 50 }
      { lng := 35, lat := 505 / 10 })

/-- C9: in every successful cycling result, the reported `estimatedDuration`
is the speed-based estimate `(distance / 20) * 60` (20 km/h average) exactly
when the provider-summed duration converts to fewer than 10 minutes while
the total distance exceeds 20 km, and the provider-summed duration in
minutes (the sum of the two day durations) otherwise. -/
theorem c9_cycling_duration_normalization (cosD sinD : ℚ → ℚ)
    (oracle1 oracle2 : Nat → String → Coord × Coord → Except ORSError ORSResponse)
    (start day1End day2End : Coord) (r : Route)
    (h : generateCyclingRouteE cosD sinD oracle1 oracle2 start day1End day2End
      = Except.ok r) :
    ∃ plan1 plan2, r.dayDetails = [plan1, plan2] ∧
      r.estimatedDuration =
        if plan1.duration + plan2.duration < 10 ∧ 20 < r.distance then
          r.distance / 20 * 60
        else plan1.duration + plan2.duration := by
  simp only [generateCyclingRouteE] at h
  split at h
  · simp at h
  · rename_i resp1 d1 heq1
    split at h
    · simp at h
    · rename_i resp2 d2 heq2
      split at h
      · rename_i f1 f2 hf1 hf2
        simp only [assembleCyclingRoute] at h
        split at h
        · rename_i s1 e1 s2 e2 hg1h hg1l hg2h hg2l
          simp only [Except.ok.injEq] at h
          subst h
          refine ⟨_, _, rfl, ?_⟩
          simp only []
          rw [div_add_div_same]
        · simp at h
      · simp at h

/-- C9 (witness): the duration-normalization law at the concrete day mocks
(provider-summed 120 minutes over 50 km, so the provider value is kept). -/
theorem c9_cycling_duration_normalization_witness :
    ∃ plan1 plan2, routeCyc.dayDetails = [plan1, plan2] ∧
      routeCyc.estimatedDuration =
        if plan1.duration + plan2.duration < 10 ∧ 20 < routeCyc.distance then
          routeCyc.distance / 20 * 60
        else plan1.duration + plan2.duration :=
  c9_cycling_duration_normalization czero czero oracleDay1 oracleDay2 centerC
    { lng := 345 / 10, lat := 50 } { lng := 35, lat := 505 / 10 } routeCyc
    (generateCyclingRouteE_mocks centerC { lng := 345 / 10, lat := 50 }
      { lng := 35, lat := 505 / 10 })

end TravelRoutePlanner
